import Mathlib

/-
  Verification development for the USB printer session layer
  (`src/index.js` of espos-usb-mc, the current revision; `src/unnamed/part_000`
  is an earlier near-identical revision of the same module).

  Shallow embedding conventions:
  * The external native transport (node-usb) is modelled by outcome parameters:
    each native primitive that can fail carries its outcome as an explicit
    argument or as a field of the device/interface descriptor
    (`Device.openError`, `Iface.claimError`, `TransferOutcome`, ...).
  * JavaScript reference identity on device objects is modelled by equality of
    `Device` values: each physical device is a distinct value.
  * Each public operation of the Session is a pure function from the session
    state (plus the transport outcomes) to the new state and a trace of
    observable actions: event emissions, native-call attempts, and callback
    invocations, in program order.  A callback invocation `Action.cb r`
    records the arguments the JS callback receives.
  * The asynchronous per-interface setup steps of `open` are modelled as
    completing in submission (descriptor) order, matching the spec's
    single-threaded cooperative scheduling model.
  * The platform-dependent kernel-driver detachment inside `open` is not
    modelled separately: its errors are swallowed by an inner try/catch in the
    source, and any error raised by the setup step before the endpoint scan
    (e.g. `iface.claim()` throwing) is modelled by `Iface.claimError`.
-/

namespace EsposUsb

/-- Endpoint transfer direction (`ep.direction === 'out' / 'in'`). -/
inductive Direction
  | dOut
  | dIn
deriving DecidableEq, Repr

/-- A USB endpoint as the session sees it: direction, address, and the
mutable transfer timeout the session assigns after claiming a pair. -/
structure Endpoint where
  dir : Direction
  addr : Nat
  timeout : Nat
deriving DecidableEq, Repr

/-- A USB interface: its active alternate setting, the outcome of the
claim step of `open` (`some e` models `iface.claim()` — or the kernel-driver
check before it — throwing error `e`), and its endpoint list. -/
structure Iface where
  altSetting : Nat
  claimError : Option Nat
  endpoints : List Endpoint
deriving DecidableEq, Repr

/-- A USB device handle.  `openError` models `device.open()` throwing.
`configDescriptor` is the nested interface descriptor list used by
`findPrinter`: a list of interfaces, each a list of the `bInterfaceClass`
codes of its alternate settings; `none` models the descriptor access
throwing (caught and mapped to exclusion in `findPrinter`). -/
structure Device where
  id : Nat
  openError : Option Nat
  interfaces : List Iface
  configDescriptor : Option (List (List Nat))
deriving DecidableEq, Repr

/-- The error values the session reports, one constructor per distinct
`new Error(...)` in the source, plus passthrough transport errors. -/
inductive UsbError
  | busyResetting        -- 'USB is resetting'
  | noDeviceFound        -- 'No USB printer device found'
  | endpointPairNotFound -- 'Can not find endpoint pair (in+out) from printer'
  | busyResetClose       -- 'USB busy (reset/close)'
  | notReady             -- 'USB endpoint not ready'
  | readInProgress       -- 'USB read already in progress'
  | noDeviceToReset      -- 'No device to reset'
  | transport (code : Nat)
deriving DecidableEq, Repr

/-- The arguments a completion callback receives. -/
inductive CbResult
  | ok                                      -- callback(null) / callback(null, self)
  | okData (buf : List Nat)                 -- callback(null, buffer)
  | err (e : UsbError)                      -- callback(error)
  | errData (e : UsbError) (buf : List Nat) -- callback(error, buffer)
deriving DecidableEq, Repr

/-- One observable action of a session operation, in program order. -/
inductive Action
  | emitConnect
  | emitClose
  | emitAttach
  | emitDetach
  | emitDisconnect
  | emitData (payload : List Nat)
  | emitError (e : UsbError)
  | natDeviceOpen
  | natSetAlt (alt : Nat)
  | natClaim
  | natTransferOut (payload : List Nat) (timeout : Nat)
  | natTransferIn (len : Nat) (timeout : Nat)
  | natDeviceReset
  | natDeviceClose
  | cb (r : CbResult)
deriving DecidableEq, Repr

/-- Is this action an invocation of a native transport primitive? -/
def Action.isNative : Action → Bool
  | Action.natDeviceOpen => true
  | Action.natSetAlt _ => true
  | Action.natClaim => true
  | Action.natTransferOut _ _ => true
  | Action.natTransferIn _ _ => true
  | Action.natDeviceReset => true
  | Action.natDeviceClose => true
  | _ => false

/-- Project a callback invocation out of an action. -/
def cbOf : Action → Option CbResult
  | Action.cb r => some r
  | _ => none

/-- The sequence of callback invocations contained in a trace. -/
def cbEvents (tr : List Action) : List CbResult :=
  tr.filterMap cbOf

/-- The session state: the fields of the `USB` object in `src/index.js`
(`device`, `endpoint`, `deviceToPcEndpoint`, `_isOpen`, `_isClosing`,
`_isResetting`, `_readInFlight`). -/
structure Session where
  device : Option Device
  endpoint : Option Endpoint            -- OUT endpoint
  deviceToPcEndpoint : Option Endpoint  -- IN endpoint
  isOpen : Bool
  isClosing : Bool
  isResetting : Bool
  readInFlight : Bool
deriving DecidableEq, Repr

/-- The session state the `USB` constructor produces, given the result of
its device-resolution step (`usb.findByIds` / pass-through / first
`findPrinter` candidate): all flags false, no endpoints. -/
def newUSB (found : Option Device) : Session :=
  { device := found
    endpoint := none
    deviceToPcEndpoint := none
    isOpen := false
    isClosing := false
    isResetting := false
    readInFlight := false }

/-- First endpoint of a given direction in an endpoint list: the source scans
`iface.endpoints` keeping the first `'out'` and the first `'in'` endpoint. -/
def firstEp (dir : Direction) (eps : List Endpoint) : Option Endpoint :=
  eps.find? fun ep => decide (ep.dir = dir)

/-- Accumulator threaded through the per-interface completion handlers of
`open`: the session, the completion counter, and the action trace. -/
structure OpenAcc where
  s : Session
  counter : Nat
  trace : List Action
deriving Repr

/-- The completion handler `open` installs for one interface
(the body of the `setAltSetting` callback in `src/index.js`, lines 133-174):
claim the interface (a raised error goes to the catch, which invokes the
callback with it and does not touch the counter); otherwise scan for the
first OUT and first IN endpoint of this interface; if both exist and the
session holds no pair yet, store the pair with its timeouts, mark the
session open, emit `connect` and invoke the callback with success;
otherwise bump the completion counter, and if every interface has now
completed with no pair recorded, invoke the callback with
`endpointPairNotFound`. -/
def openIfaceStep (total : Nat) (acc : OpenAcc) (ifc : Iface) : OpenAcc :=
  let acc1 : OpenAcc := { acc with trace := acc.trace ++ [Action.natSetAlt ifc.altSetting] }
  match ifc.claimError with
  | some e =>
      { acc1 with trace := acc1.trace ++ [Action.natClaim, Action.cb (CbResult.err (UsbError.transport e))] }
  | none =>
      let acc2 : OpenAcc := { acc1 with trace := acc1.trace ++ [Action.natClaim] }
      let outEp := firstEp Direction.dOut ifc.endpoints
      let inEp := firstEp Direction.dIn ifc.endpoints
      if outEp.isSome && inEp.isSome && acc2.s.endpoint.isNone && acc2.s.deviceToPcEndpoint.isNone then
        { acc2 with
          s := { acc2.s with
                 endpoint := outEp.map fun o => { o with timeout := 15000 }
                 deviceToPcEndpoint := inEp.map fun i => { i with timeout := 700 }
                 isOpen := true
                 isClosing := false }
          trace := acc2.trace ++ [Action.emitConnect, Action.cb CbResult.ok] }
      else
        let c := acc.counter + 1
        if c == total && acc2.s.endpoint.isNone then
          { acc2 with counter := c
                      trace := acc2.trace ++ [Action.cb (CbResult.err UsbError.endpointPairNotFound)] }
        else
          { acc2 with counter := c }

/-- `USB.prototype.open` (src/index.js, lines 102-182): guards for
resetting / no device / already open, then `device.open()`, then the
per-interface setup completions in descriptor order. -/
def openOp (s : Session) : Session × List Action :=
  if s.isResetting then
    (s, [Action.cb (CbResult.err UsbError.busyResetting)])
  else
    match s.device with
    | none => (s, [Action.cb (CbResult.err UsbError.noDeviceFound)])
    | some d =>
      if s.isOpen then
        (s, [Action.cb CbResult.ok])
      else
        match d.openError with
        | some e => (s, [Action.natDeviceOpen, Action.cb (CbResult.err (UsbError.transport e))])
        | none =>
          let out := d.interfaces.foldl (openIfaceStep d.interfaces.length) ⟨s, 0, [Action.natDeviceOpen]⟩
          (out.s, out.trace)

/-- The callback invocations a call to `open` performs. -/
def openCbs (s : Session) : List CbResult :=
  cbEvents (openOp s).2

/-- Outcome of the OUT bulk transfer the transport performs for `write`. -/
inductive TransferOutcome
  | ok                 -- completion without error
  | err (e : Nat)      -- completion with a transport error
  | thrown (e : Nat)   -- `endpoint.transfer` throws synchronously
deriving DecidableEq, Repr

/-- `USB.prototype.write` (src/index.js, lines 184-210): guard on
resetting/closing, guard on a missing OUT endpoint, emit `data` with the
payload, then submit the transfer; a completion error is also emitted as
an `error` event before the callback runs. -/
def writeOp (s : Session) (data : List Nat) (tr : TransferOutcome) : Session × List Action :=
  if s.isResetting || s.isClosing then
    (s, [Action.cb (CbResult.err UsbError.busyResetClose)])
  else
    match s.endpoint with
    | none => (s, [Action.cb (CbResult.err UsbError.notReady)])
    | some ep =>
      match tr with
      | TransferOutcome.ok =>
          (s, [Action.emitData data, Action.natTransferOut data ep.timeout, Action.cb CbResult.ok])
      | TransferOutcome.err e =>
          (s, [Action.emitData data, Action.natTransferOut data ep.timeout,
               Action.emitError (UsbError.transport e), Action.cb (CbResult.err (UsbError.transport e))])
      | TransferOutcome.thrown e =>
          (s, [Action.emitData data, Action.natTransferOut data ep.timeout,
               Action.cb (CbResult.err (UsbError.transport e))])

/-- Outcome of the IN bulk transfer the transport performs for `read`.
`ok none` models a completion whose `data` argument is missing or not a
buffer (the source substitutes an empty buffer). -/
inductive ReadTransfer
  | ok (data : Option (List Nat))
  | err (e : Nat)
  | thrown (e : Nat)
deriving DecidableEq, Repr

/-- `USB.prototype.read` (src/index.js, lines 218-253): guard on
resetting/closing, zero-length success if no IN endpoint, guard on an
outstanding read, then an 8-byte IN transfer; every completion path clears
the in-flight flag before the callback runs. -/
def readOp (s : Session) (tr : ReadTransfer) : Session × List Action :=
  if s.isResetting || s.isClosing then
    (s, [Action.cb (CbResult.err UsbError.busyResetClose)])
  else
    match s.deviceToPcEndpoint with
    | none => (s, [Action.cb (CbResult.okData [])])
    | some ep =>
      if s.readInFlight then
        (s, [Action.cb (CbResult.err UsbError.readInProgress)])
      else
        match tr with
        | ReadTransfer.ok d =>
            ({ s with readInFlight := false },
             [Action.natTransferIn 8 ep.timeout, Action.cb (CbResult.okData (d.getD []))])
        | ReadTransfer.err e =>
            ({ s with readInFlight := false },
             [Action.natTransferIn 8 ep.timeout, Action.cb (CbResult.errData (UsbError.transport e) [])])
        | ReadTransfer.thrown e =>
            ({ s with readInFlight := false },
             [Action.natTransferIn 8 ep.timeout, Action.cb (CbResult.errData (UsbError.transport e) [])])

/-- Outcome of the device-level reset the transport performs for `reset`. -/
inductive ResetOutcome
  | ok
  | err (e : Nat)
  | thrown (e : Nat)   -- `device.reset` throws synchronously
deriving DecidableEq, Repr

/-- `USB.prototype.reset` (src/index.js, lines 260-292): guard on no
device, idempotent success if already resetting; otherwise the flag is set
and the completion clears the resetting and in-flight flags, forces the
session closed with no endpoints, and reports `err || null`; the
synchronous-throw path clears only the two flags. -/
def resetOp (s : Session) (tr : ResetOutcome) : Session × List Action :=
  match s.device with
  | none => (s, [Action.cb (CbResult.err UsbError.noDeviceToReset)])
  | some _ =>
    if s.isResetting then
      (s, [Action.cb CbResult.ok])
    else
      match tr with
      | ResetOutcome.ok =>
          ({ s with isResetting := false, readInFlight := false, isOpen := false,
                    endpoint := none, deviceToPcEndpoint := none },
           [Action.natDeviceReset, Action.cb CbResult.ok])
      | ResetOutcome.err e =>
          ({ s with isResetting := false, readInFlight := false, isOpen := false,
                    endpoint := none, deviceToPcEndpoint := none },
           [Action.natDeviceReset, Action.cb (CbResult.err (UsbError.transport e))])
      | ResetOutcome.thrown e =>
          ({ s with isResetting := false, readInFlight := false },
           [Action.natDeviceReset, Action.cb (CbResult.err (UsbError.transport e))])

/-- `USB.prototype.close` (src/index.js, lines 294-327): idempotent guard on
an ongoing close; with no device or a never-opened session, local state is
reset without a native close and without a `close` event; otherwise the
native close runs (its errors swallowed), all flags and endpoints are
cleared, the callback fires and `close` is emitted. -/
def closeOp (s : Session) : Session × List Action :=
  if s.isClosing then
    (s, [Action.cb CbResult.ok])
  else
    if s.device.isNone || !s.isOpen then
      ({ s with isOpen := false, endpoint := none, deviceToPcEndpoint := none, isClosing := false },
       [Action.cb CbResult.ok])
    else
      ({ s with isOpen := false, readInFlight := false, endpoint := none,
                deviceToPcEndpoint := none, isClosing := false },
       [Action.natDeviceClose, Action.cb CbResult.ok, Action.emitClose])

/-- The `detach` hot-plug handler `_onDetach` (src/index.js, lines 44-55):
an event for a device other than the bound one is ignored; an event for
the bound device closes the session, clears the endpoints and the device
reference, and emits `detach` then `disconnect`. -/
def onDetach (s : Session) (dev : Device) : Session × List Action :=
  match s.device with
  | some d =>
    if d = dev then
      ({ s with isOpen := false, endpoint := none, deviceToPcEndpoint := none, device := none },
       [Action.emitDetach, Action.emitDisconnect])
    else
      (s, [])
  | none => (s, [])

/-- `IFACE_CLASS.PRINTER` (src/index.js, line 11). -/
def printerClass : Nat := 7

/-- The predicate `USB.findPrinter` filters with (src/index.js, lines
77-87): some interface of the configuration descriptor has an alternate
setting with `bInterfaceClass === 0x07`; an exception while reading the
descriptor is caught and yields `false`. -/
def isPrinterDevice (d : Device) : Bool :=
  match d.configDescriptor with
  | none => false
  | some ifaces => ifaces.any fun ifc => ifc.any fun cls => cls == printerClass

/-- `USB.findPrinter` (src/index.js, lines 74-88) applied to the
transport's device list. -/
def findPrinter (devs : List Device) : List Device :=
  devs.filter isPrinterDevice

/-- Outcome of the promise `USB.getDevice` returns. -/
inductive PromiseResult
  | resolved            -- resolve(device)
  | rejected (e : UsbError)
deriving DecidableEq, Repr

/-- How one invocation of the `open` callback inside `USB.getDevice`
settles the promise: an error rejects, success resolves with the session. -/
def promiseAttempt : CbResult → PromiseResult
  | CbResult.err e => PromiseResult.rejected e
  | CbResult.errData e _ => PromiseResult.rejected e
  | _ => PromiseResult.resolved

/-- `USB.getDevice` (src/index.js, lines 90-98): construct a fresh session
around the resolved device and call `open`; each callback invocation
attempts to settle the promise and, per promise semantics, the first
attempt wins (`none` = the promise never settles because `open` never
invoked its callback). -/
def getDevice (found : Option Device) : Option PromiseResult :=
  ((openCbs (newUSB found)).map promiseAttempt).head?

/-- The stored pair `(o, i)` is exactly the first-OUT/first-IN pair of the
single interface `ifc`, with the timeouts `open` assigns. -/
def pairFromIface (ifc : Iface) (o i : Endpoint) : Prop :=
  ifc.claimError = none ∧
  ∃ o0 i0, firstEp Direction.dOut ifc.endpoints = some o0 ∧
    firstEp Direction.dIn ifc.endpoints = some i0 ∧
    o = { o0 with timeout := 15000 } ∧ i = { i0 with timeout := 700 }

/-- Endpoint-pair invariant: either the session holds no endpoints at all,
or it holds a complete pair coming from one single interface of `ifaces`. -/
def goodPair (ifaces : List Iface) (s : Session) : Prop :=
  (s.endpoint = none ∧ s.deviceToPcEndpoint = none) ∨
  ∃ ifc o i, ifc ∈ ifaces ∧ pairFromIface ifc o i ∧
    s.endpoint = some o ∧ s.deviceToPcEndpoint = some i

/- ## Helper lemmas -/

theorem cbEvents_append (l1 l2 : List Action) :
    cbEvents (l1 ++ l2) = cbEvents l1 ++ cbEvents l2 := by
  simp [cbEvents, List.filterMap_append]

/-- One interface-setup completion leaves the session untouched when a pair
is already recorded. -/
theorem openIfaceStep_s_of_some (n : Nat) (acc : OpenAcc) (a : Iface) (v : Endpoint)
    (hv : acc.s.endpoint = some v) :
    (openIfaceStep n acc a).s = acc.s := by
  cases hca : a.claimError <;> simp [openIfaceStep, hca, hv]

/-- One interface-setup completion, claim succeeding, with both a first OUT
and a first IN endpoint on this interface and no pair recorded yet: the pair
is stored with its timeouts, `connect` is emitted and the callback fires. -/
theorem openIfaceStep_found (n : Nat) (acc : OpenAcc) (a : Iface) (o0 i0 : Endpoint)
    (hca : a.claimError = none) (hep : acc.s.endpoint = none)
    (hdtp : acc.s.deviceToPcEndpoint = none)
    (ho0 : firstEp Direction.dOut a.endpoints = some o0)
    (hi0 : firstEp Direction.dIn a.endpoints = some i0) :
    openIfaceStep n acc a =
      { s := { acc.s with
                 endpoint := some { o0 with timeout := 15000 }
                 deviceToPcEndpoint := some { i0 with timeout := 700 }
                 isOpen := true
                 isClosing := false }
        counter := acc.counter
        trace := acc.trace ++ [Action.natSetAlt a.altSetting, Action.natClaim,
                               Action.emitConnect, Action.cb CbResult.ok] } := by
  simp [openIfaceStep, hca, hep, hdtp, ho0, hi0]

/-- One interface-setup completion, claim succeeding, this interface lacking
an OUT or an IN endpoint (no pair recorded yet), not the last completion:
only the counter moves. -/
theorem openIfaceStep_noPair_mid (n : Nat) (acc : OpenAcc) (a : Iface)
    (hca : a.claimError = none) (hep : acc.s.endpoint = none)
    (hdtp : acc.s.deviceToPcEndpoint = none)
    (hg : ((firstEp Direction.dOut a.endpoints).isSome &&
           (firstEp Direction.dIn a.endpoints).isSome) = false)
    (hc : (acc.counter + 1 == n) = false) :
    openIfaceStep n acc a =
      { s := acc.s
        counter := acc.counter + 1
        trace := acc.trace ++ [Action.natSetAlt a.altSetting, Action.natClaim] } := by
  simp [openIfaceStep, hca, hep, hdtp, hg, hc]

/-- One interface-setup completion, claim succeeding, this interface lacking
an OUT or an IN endpoint (no pair recorded yet), and this is the last
completion: the `endpointPairNotFound` callback fires. -/
theorem openIfaceStep_noPair_last (n : Nat) (acc : OpenAcc) (a : Iface)
    (hca : a.claimError = none) (hep : acc.s.endpoint = none)
    (hdtp : acc.s.deviceToPcEndpoint = none)
    (hg : ((firstEp Direction.dOut a.endpoints).isSome &&
           (firstEp Direction.dIn a.endpoints).isSome) = false)
    (hc : (acc.counter + 1 == n) = true) :
    openIfaceStep n acc a =
      { s := acc.s
        counter := acc.counter + 1
        trace := acc.trace ++ [Action.natSetAlt a.altSetting, Action.natClaim,
                               Action.cb (CbResult.err UsbError.endpointPairNotFound)] } := by
  simp [openIfaceStep, hca, hep, hdtp, hg, hc]

/-- Once a pair is recorded and no later claim raises, the remaining
interface-setup completions neither change the session nor invoke the
callback again. -/
theorem openFold_afterPair (n : Nat) :
    ∀ (l : List Iface) (acc : OpenAcc),
      (∀ ifc ∈ l, ifc.claimError = none) →
      acc.s.endpoint.isSome = true →
      (l.foldl (openIfaceStep n) acc).s = acc.s ∧
        cbEvents (l.foldl (openIfaceStep n) acc).trace = cbEvents acc.trace := by
  intro l
  induction l with
  | nil => intro acc _ _; exact ⟨rfl, rfl⟩
  | cons a t ih =>
      intro acc hcl hsome
      obtain ⟨v, hv⟩ := Option.isSome_iff_exists.mp hsome
      have hca : a.claimError = none := hcl a (List.mem_cons_self a t)
      have hstep_s : (openIfaceStep n acc a).s = acc.s :=
        openIfaceStep_s_of_some n acc a v hv
      have hstep_cb : cbEvents (openIfaceStep n acc a).trace = cbEvents acc.trace := by
        simp [openIfaceStep, hca, hv, cbEvents, cbOf, List.filterMap_append]
      simp only [List.foldl_cons]
      obtain ⟨h1, h2⟩ := ih (openIfaceStep n acc a)
        (fun i hi => hcl i (List.mem_cons_of_mem a hi))
        (by rw [hstep_s]; exact hsome)
      exact ⟨h1.trans hstep_s, h2.trans hstep_cb⟩

/-- Interface-setup completion preserves the endpoint-pair invariant. -/
theorem openIfaceStep_goodPair (n : Nat) {L : List Iface} {a : Iface} (ha : a ∈ L)
    (acc : OpenAcc) (h : goodPair L acc.s) : goodPair L (openIfaceStep n acc a).s := by
  rcases h with ⟨hep, hdtp⟩ | ⟨ifc, o, i, hmem, hpair, hepv, hdtpv⟩
  · cases hca : a.claimError with
    | some e =>
        left
        constructor <;> simp [openIfaceStep, hca, hep, hdtp]
    | none =>
        by_cases hout : (firstEp Direction.dOut a.endpoints).isSome = true
        · by_cases hin : (firstEp Direction.dIn a.endpoints).isSome = true
          · obtain ⟨o0, ho0⟩ := Option.isSome_iff_exists.mp hout
            obtain ⟨i0, hi0⟩ := Option.isSome_iff_exists.mp hin
            right
            refine ⟨a, { o0 with timeout := 15000 }, { i0 with timeout := 700 }, ha,
                    ⟨hca, o0, i0, ho0, hi0, rfl, rfl⟩, ?_, ?_⟩ <;>
              simp [openIfaceStep_found n acc a o0 i0 hca hep hdtp ho0 hi0]
          · have hin' : (firstEp Direction.dIn a.endpoints).isSome = false := by
              simpa using hin
            left
            constructor
            · simp [openIfaceStep, hca, hep, hdtp, hin']
              split <;> exact hep
            · simp [openIfaceStep, hca, hep, hdtp, hin']
              split <;> exact hdtp
        · have hout' : (firstEp Direction.dOut a.endpoints).isSome = false := by
            simpa using hout
          left
          constructor
          · simp [openIfaceStep, hca, hep, hdtp, hout']
            split <;> exact hep
          · simp [openIfaceStep, hca, hep, hdtp, hout']
            split <;> exact hdtp
  · have hs : (openIfaceStep n acc a).s = acc.s :=
      openIfaceStep_s_of_some n acc a o hepv
    right
    exact ⟨ifc, o, i, hmem, hpair, hs ▸ hepv, hs ▸ hdtpv⟩

/-- Folding the interface-setup completions preserves the endpoint-pair
invariant. -/
theorem openFold_goodPair (n : Nat) (L : List Iface) :
    ∀ (l : List Iface), (∀ ifc ∈ l, ifc ∈ L) → ∀ acc : OpenAcc, goodPair L acc.s →
      goodPair L (l.foldl (openIfaceStep n) acc).s := by
  intro l
  induction l with
  | nil => intro _ acc h; simpa using h
  | cons a t ih =>
      intro hsub acc h
      simp only [List.foldl_cons]
      exact ih (fun i hi => hsub i (List.mem_cons_of_mem a hi)) _
        (openIfaceStep_goodPair n (hsub a (List.mem_cons_self a t)) acc h)

/-- With every claim step succeeding and no pair recorded yet, folding the
remaining interface-setup completions (whose count matches the remaining
budget up to `n`) invokes the callback exactly once more; and if no pair was
ever recorded, the last action of the run is the single
`endpointPairNotFound` report. -/
theorem openFold_exhaust (n : Nat) :
    ∀ (l : List Iface) (acc : OpenAcc),
      l ≠ [] →
      (∀ ifc ∈ l, ifc.claimError = none) →
      acc.s.endpoint = none →
      acc.s.deviceToPcEndpoint = none →
      acc.counter + l.length = n →
      (cbEvents (l.foldl (openIfaceStep n) acc).trace).length
          = (cbEvents acc.trace).length + 1 ∧
        ((l.foldl (openIfaceStep n) acc).s.endpoint = none →
          (l.foldl (openIfaceStep n) acc).trace.getLast? =
            some (Action.cb (CbResult.err UsbError.endpointPairNotFound))) := by
  intro l
  induction l with
  | nil => intro acc hne; exact absurd rfl hne
  | cons a t ih =>
    intro acc _ hcl hep hdtp hcount
    have hca : a.claimError = none := hcl a (List.mem_cons_self a t)
    by_cases hg : ((firstEp Direction.dOut a.endpoints).isSome &&
        (firstEp Direction.dIn a.endpoints).isSome) = true
    · rw [Bool.and_eq_true] at hg
      obtain ⟨o0, ho0⟩ := Option.isSome_iff_exists.mp hg.1
      obtain ⟨i0, hi0⟩ := Option.isSome_iff_exists.mp hg.2
      have hstep := openIfaceStep_found n acc a o0 i0 hca hep hdtp ho0 hi0
      simp only [List.foldl_cons]
      obtain ⟨hB1, hB2⟩ := openFold_afterPair n t (openIfaceStep n acc a)
        (fun i hi => hcl i (List.mem_cons_of_mem a hi))
        (by rw [hstep]; rfl)
      constructor
      · rw [hB2, hstep]
        simp [cbEvents_append, cbEvents, cbOf]
      · intro hnone
        rw [hB1, hstep] at hnone
        simp at hnone
    · have hg' : ((firstEp Direction.dOut a.endpoints).isSome &&
          (firstEp Direction.dIn a.endpoints).isSome) = false := by
        simpa using hg
      cases t with
      | nil =>
        have hc : (acc.counter + 1 == n) = true := by
          rw [beq_iff_eq]
          simpa using hcount
        have hstep := openIfaceStep_noPair_last n acc a hca hep hdtp hg' hc
        simp only [List.foldl_cons, List.foldl_nil]
        rw [hstep]
        constructor
        · simp [cbEvents_append, cbEvents, cbOf]
        · intro _
          rw [List.getLast?_append_cons]
          rfl
      | cons b t2 =>
        have hlt : (acc.counter + 1 == n) = false := by
          rw [beq_eq_false_iff_ne]
          simp only [List.length_cons] at hcount
          omega
        have hstep := openIfaceStep_noPair_mid n acc a hca hep hdtp hg' hlt
        have hcount' : acc.counter + 1 + (b :: t2).length = n := by
          simp only [List.length_cons] at hcount ⊢
          omega
        obtain ⟨hI1, hI2⟩ := ih { s := acc.s
                                  counter := acc.counter + 1
                                  trace := acc.trace ++ [Action.natSetAlt a.altSetting, Action.natClaim] }
          (List.cons_ne_nil b t2) (fun i hi => hcl i (List.mem_cons_of_mem a hi)) hep hdtp hcount'
        rw [List.foldl_cons, hstep]
        constructor
        · rw [hI1]
          simp [cbEvents_append, cbEvents, cbOf]
        · exact hI2

/- ## Claim theorems -/

/-- Claim C6: the guards of `open` are checked in order — resetting fails
with Busy (before any other check), a missing device fails with
NoDeviceBound, an already-open session succeeds immediately returning self
with no native calls, and a failing transport device-open reports the
transport error and leaves the session unchanged and Closed, with no
endpoint pair stored. -/
theorem C6_open_guard_order (s : Session) :
    (s.isResetting = true →
      openOp s = (s, [Action.cb (CbResult.err UsbError.busyResetting)])) ∧
    (s.isResetting = false → s.device = none →
      openOp s = (s, [Action.cb (CbResult.err UsbError.noDeviceFound)])) ∧
    (∀ d, s.isResetting = false → s.device = some d → s.isOpen = true →
      openOp s = (s, [Action.cb CbResult.ok]) ∧
        ∀ a ∈ (openOp s).2, a.isNative = false) ∧
    (∀ d e, s.isResetting = false → s.device = some d → s.isOpen = false →
      d.openError = some e →
      (openOp s).1 = s ∧ (openOp s).1.isOpen = false ∧
        (openOp s).1.endpoint = s.endpoint ∧
        (openOp s).1.deviceToPcEndpoint = s.deviceToPcEndpoint ∧
        cbEvents (openOp s).2 = [CbResult.err (UsbError.transport e)]) := by
  refine ⟨?_, ?_, ?_, ?_⟩
  · intro h
    simp [openOp, h]
  · intro h hd
    simp [openOp, h, hd]
  · intro d h hd ho
    constructor
    · simp [openOp, h, hd, ho]
    · intro a ha
      simp [openOp, h, hd, ho] at ha
      simp [ha, Action.isNative]
  · intro d e h hd ho he
    refine ⟨?_, ?_, ?_, ?_, ?_⟩ <;> simp [openOp, h, hd, ho, he, cbEvents, cbOf]

/-- Witness for C6 at concrete inputs: a session whose transport device-open
throws error 9 is left unchanged with the error reported. -/
theorem C6_open_guard_order_witness :
    (openOp ⟨some ⟨1, some 9, [], none⟩, none, none, false, false, false, false⟩).1 =
      ⟨some ⟨1, some 9, [], none⟩, none, none, false, false, false, false⟩ ∧
    cbEvents (openOp ⟨some ⟨1, some 9, [], none⟩, none, none, false, false, false, false⟩).2 =
      [CbResult.err (UsbError.transport 9)] := by
  have h := (C6_open_guard_order
    ⟨some ⟨1, some 9, [], none⟩, none, none, false, false, false, false⟩).2.2.2
    ⟨1, some 9, [], none⟩ 9 rfl rfl rfl rfl
  exact ⟨h.1, h.2.2.2.2⟩

/-- Claim C7: `write` fails with Busy while resetting or closing and with
NotReady without an OUT endpoint; otherwise the `data` event carrying the
payload is emitted before the transfer is attempted; a transfer error is
emitted as an `error` event in addition to the callback receiving it; and
the transfer is never retried (at most one native call per invocation). -/
theorem C7_write (s : Session) (data : List Nat) (tr : TransferOutcome) :
    ((s.isResetting || s.isClosing) = true →
      writeOp s data tr = (s, [Action.cb (CbResult.err UsbError.busyResetClose)])) ∧
    ((s.isResetting || s.isClosing) = false → s.endpoint = none →
      writeOp s data tr = (s, [Action.cb (CbResult.err UsbError.notReady)])) ∧
    (∀ ep, (s.isResetting || s.isClosing) = false → s.endpoint = some ep →
      (∃ rest, (writeOp s data tr).2 =
        Action.emitData data :: Action.natTransferOut data ep.timeout :: rest) ∧
      (∀ e, tr = TransferOutcome.err e →
        (writeOp s data tr).2 =
          [Action.emitData data, Action.natTransferOut data ep.timeout,
           Action.emitError (UsbError.transport e),
           Action.cb (CbResult.err (UsbError.transport e))])) ∧
    ((writeOp s data tr).2.filter Action.isNative).length ≤ 1 := by
  refine ⟨?_, ?_, ?_, ?_⟩
  · intro h
    simp [writeOp, h]
  · intro h he
    simp [writeOp, h, he]
  · intro ep h he
    constructor
    · cases tr with
      | ok => exact ⟨[Action.cb CbResult.ok], by simp [writeOp, h, he]⟩
      | err e => exact ⟨[Action.emitError (UsbError.transport e),
          Action.cb (CbResult.err (UsbError.transport e))], by simp [writeOp, h, he]⟩
      | thrown e => exact ⟨[Action.cb (CbResult.err (UsbError.transport e))],
          by simp [writeOp, h, he]⟩
    · intro e htr
      subst htr
      simp [writeOp, h, he]
  · by_cases h : (s.isResetting || s.isClosing) = true
    · simp [writeOp, h, Action.isNative]
    · rw [Bool.not_eq_true] at h
      cases he : s.endpoint with
      | none => simp [writeOp, h, he, Action.isNative]
      | some ep => cases tr <;> simp [writeOp, h, he, Action.isNative]

/-- Witness for C7 at concrete inputs: on a session with a bound OUT
endpoint and a transfer failing with transport error 4, the full trace is
`data` event, transfer attempt, `error` event, error callback. -/
theorem C7_write_witness :
    (writeOp ⟨none, some ⟨Direction.dOut, 1, 15000⟩, none, true, false, false, false⟩
        [10, 20] (TransferOutcome.err 4)).2 =
      [Action.emitData [10, 20], Action.natTransferOut [10, 20] 15000,
       Action.emitError (UsbError.transport 4),
       Action.cb (CbResult.err (UsbError.transport 4))] := by
  have h := ((C7_write ⟨none, some ⟨Direction.dOut, 1, 15000⟩, none, true, false, false, false⟩
    [10, 20] (TransferOutcome.err 4)).2.2.1 ⟨Direction.dOut, 1, 15000⟩ rfl rfl).2 4 rfl
  exact h

/-- Claim C8: a detach notification for a device other than the bound one
changes nothing and emits nothing; one for the bound device closes the
session, clears the endpoint pair and the device reference, and raises
`detach` then `disconnect`, each exactly once and in that order. -/
theorem C8_detach (s : Session) (dev : Device) :
    (s.device ≠ some dev → onDetach s dev = (s, [])) ∧
    (s.device = some dev →
      (onDetach s dev).1.isOpen = false ∧
      (onDetach s dev).1.endpoint = none ∧
      (onDetach s dev).1.deviceToPcEndpoint = none ∧
      (onDetach s dev).1.device = none ∧
      (onDetach s dev).2 = [Action.emitDetach, Action.emitDisconnect]) := by
  constructor
  · intro h
    cases hd : s.device with
    | none => simp [onDetach, hd]
    | some d =>
        have hne : ¬(d = dev) := by
          intro hcontra
          exact h (hd.trans (by rw [hcontra]))
        simp [onDetach, hd, hne]
  · intro h
    refine ⟨?_, ?_, ?_, ?_, ?_⟩ <;> simp [onDetach, h]

/-- Witness for C8 at concrete inputs: detaching the bound device of an
open session closes it and emits `detach` then `disconnect`; detaching a
different device is a no-op. -/
theorem C8_detach_witness :
    (onDetach ⟨some ⟨1, none, [], none⟩, some ⟨Direction.dOut, 1, 15000⟩,
        some ⟨Direction.dIn, 2, 700⟩, true, false, false, false⟩ ⟨1, none, [], none⟩).2 =
      [Action.emitDetach, Action.emitDisconnect] ∧
    onDetach ⟨some ⟨1, none, [], none⟩, some ⟨Direction.dOut, 1, 15000⟩,
        some ⟨Direction.dIn, 2, 700⟩, true, false, false, false⟩ ⟨2, none, [], none⟩ =
      (⟨some ⟨1, none, [], none⟩, some ⟨Direction.dOut, 1, 15000⟩,
        some ⟨Direction.dIn, 2, 700⟩, true, false, false, false⟩, []) := by
  constructor
  · exact ((C8_detach ⟨some ⟨1, none, [], none⟩, some ⟨Direction.dOut, 1, 15000⟩,
      some ⟨Direction.dIn, 2, 700⟩, true, false, false, false⟩ ⟨1, none, [], none⟩).2 rfl).2.2.2.2
  · exact (C8_detach ⟨some ⟨1, none, [], none⟩, some ⟨Direction.dOut, 1, 15000⟩,
      some ⟨Direction.dIn, 2, 700⟩, true, false, false, false⟩ ⟨2, none, [], none⟩).1 (by decide)

/-- Claim C2: after the completion callback of `reset` runs — whether the
transport reported success or an error — the resetting flag, the in-flight
read flag and the open flag are cleared and both endpoints are dropped; the
callback receives success on a clean reset and the transport error
otherwise; and until a new `open`, a `write` fails with NotReady and a
`read` returns a zero-length buffer without error. -/
theorem C2_reset_forces_closed (s : Session) (d : Device) (tr : ResetOutcome)
    (hdev : s.device = some d) (hnr : s.isResetting = false)
    (hnc : s.isClosing = false) (hnt : ∀ e, tr ≠ ResetOutcome.thrown e) :
    (resetOp s tr).1.isResetting = false ∧
    (resetOp s tr).1.readInFlight = false ∧
    (resetOp s tr).1.isOpen = false ∧
    (resetOp s tr).1.endpoint = none ∧
    (resetOp s tr).1.deviceToPcEndpoint = none ∧
    (tr = ResetOutcome.ok → cbEvents (resetOp s tr).2 = [CbResult.ok]) ∧
    (∀ e, tr = ResetOutcome.err e →
      cbEvents (resetOp s tr).2 = [CbResult.err (UsbError.transport e)]) ∧
    (∀ data wtr, cbEvents (writeOp (resetOp s tr).1 data wtr).2 =
      [CbResult.err UsbError.notReady]) ∧
    (∀ rtr, cbEvents (readOp (resetOp s tr).1 rtr).2 = [CbResult.okData []]) := by
  cases tr with
  | thrown e => exact absurd rfl (hnt e)
  | ok =>
      refine ⟨?_, ?_, ?_, ?_, ?_, ?_, ?_, ?_, ?_⟩ <;>
        simp [resetOp, writeOp, readOp, hdev, hnr, hnc, cbEvents, cbOf]
  | err e =>
      refine ⟨?_, ?_, ?_, ?_, ?_, ?_, ?_, ?_, ?_⟩ <;>
        simp [resetOp, writeOp, readOp, hdev, hnr, hnc, cbEvents, cbOf]

/-- Witness for C2 at concrete inputs: a reset whose transport completion
reports error 6, on an open session with both endpoints bound, clears
everything, reports the error, and a following write/read get
NotReady/zero-length. -/
theorem C2_reset_forces_closed_witness :
    (resetOp ⟨some ⟨1, none, [], none⟩, some ⟨Direction.dOut, 1, 15000⟩,
        some ⟨Direction.dIn, 2, 700⟩, true, false, false, true⟩ (ResetOutcome.err 6)).1.isOpen
      = false ∧
    cbEvents (resetOp ⟨some ⟨1, none, [], none⟩, some ⟨Direction.dOut, 1, 15000⟩,
        some ⟨Direction.dIn, 2, 700⟩, true, false, false, true⟩ (ResetOutcome.err 6)).2 =
      [CbResult.err (UsbError.transport 6)] ∧
    cbEvents (writeOp (resetOp ⟨some ⟨1, none, [], none⟩, some ⟨Direction.dOut, 1, 15000⟩,
        some ⟨Direction.dIn, 2, 700⟩, true, false, false, true⟩ (ResetOutcome.err 6)).1
        [1, 2] TransferOutcome.ok).2 = [CbResult.err UsbError.notReady] ∧
    cbEvents (readOp (resetOp ⟨some ⟨1, none, [], none⟩, some ⟨Direction.dOut, 1, 15000⟩,
        some ⟨Direction.dIn, 2, 700⟩, true, false, false, true⟩ (ResetOutcome.err 6)).1
        (ReadTransfer.ok (some [1]))).2 = [CbResult.okData []] := by
  have h := C2_reset_forces_closed ⟨some ⟨1, none, [], none⟩, some ⟨Direction.dOut, 1, 15000⟩,
    some ⟨Direction.dIn, 2, 700⟩, true, false, false, true⟩ ⟨1, none, [], none⟩
    (ResetOutcome.err 6) rfl rfl rfl (by intro e hcontra; cases hcontra)
  exact ⟨h.2.2.1, h.2.2.2.2.2.2.1 6 rfl, h.2.2.2.2.2.2.2.1 [1, 2] TransferOutcome.ok,
    h.2.2.2.2.2.2.2.2 (ReadTransfer.ok (some [1]))⟩

/-- Claim C5: `read` fails with Busy while resetting or closing, returns a
zero-length buffer with no error when no IN endpoint is bound, fails with
ReadInProgress while another IN transfer is outstanding; otherwise it
transfers a fixed 8-byte chunk, and every completion path (success,
transport error, synchronous throw) leaves the in-flight flag clear, so the
next read is accepted and performs its transfer. -/
theorem C5_read_guards (s : Session) (tr : ReadTransfer) :
    ((s.isResetting || s.isClosing) = true →
      readOp s tr = (s, [Action.cb (CbResult.err UsbError.busyResetClose)])) ∧
    ((s.isResetting || s.isClosing) = false → s.deviceToPcEndpoint = none →
      readOp s tr = (s, [Action.cb (CbResult.okData [])])) ∧
    ((s.isResetting || s.isClosing) = false → s.deviceToPcEndpoint ≠ none →
      s.readInFlight = true →
      readOp s tr = (s, [Action.cb (CbResult.err UsbError.readInProgress)])) ∧
    (∀ ep, (s.isResetting || s.isClosing) = false → s.deviceToPcEndpoint = some ep →
      s.readInFlight = false →
      Action.natTransferIn 8 ep.timeout ∈ (readOp s tr).2 ∧
      (readOp s tr).1.readInFlight = false ∧
      (∀ tr2, Action.natTransferIn 8 ep.timeout ∈ (readOp (readOp s tr).1 tr2).2)) := by
  refine ⟨?_, ?_, ?_, ?_⟩
  · intro h
    simp [readOp, h]
  · intro h he
    simp [readOp, h, he]
  · intro h he hf
    cases hd : s.deviceToPcEndpoint with
    | none => exact absurd hd he
    | some ep => simp [readOp, h, hd, hf]
  · intro ep h he hf
    refine ⟨?_, ?_, ?_⟩
    · cases tr <;> simp [readOp, h, he, hf]
    · cases tr <;> simp [readOp, h, he, hf]
    · intro tr2
      have hs1 : (readOp s tr).1 = { s with readInFlight := false } := by
        cases tr <;> simp [readOp, h, he, hf]
      rw [hs1]
      cases tr2 <;> simp [readOp, h, he, hf]

/-- Witness for C5 at concrete inputs: a read whose transfer completes with
transport error 2 performs the 8-byte transfer, leaves the in-flight flag
clear, and a following read performs its transfer again. -/
theorem C5_read_guards_witness :
    Action.natTransferIn 8 700 ∈
      (readOp ⟨some ⟨1, none, [], none⟩, some ⟨Direction.dOut, 1, 15000⟩,
        some ⟨Direction.dIn, 2, 700⟩, true, false, false, false⟩ (ReadTransfer.err 2)).2 ∧
    (readOp ⟨some ⟨1, none, [], none⟩, some ⟨Direction.dOut, 1, 15000⟩,
        some ⟨Direction.dIn, 2, 700⟩, true, false, false, false⟩
        (ReadTransfer.err 2)).1.readInFlight = false ∧
    Action.natTransferIn 8 700 ∈
      (readOp (readOp ⟨some ⟨1, none, [], none⟩, some ⟨Direction.dOut, 1, 15000⟩,
        some ⟨Direction.dIn, 2, 700⟩, true, false, false, false⟩ (ReadTransfer.err 2)).1
        (ReadTransfer.ok (some [0]))).2 := by
  have h := (C5_read_guards ⟨some ⟨1, none, [], none⟩, some ⟨Direction.dOut, 1, 15000⟩,
    some ⟨Direction.dIn, 2, 700⟩, true, false, false, false⟩ (ReadTransfer.err 2)).2.2.2
    ⟨Direction.dIn, 2, 700⟩ rfl rfl rfl
  exact ⟨h.1, h.2.1, h.2.2 (ReadTransfer.ok (some [0]))⟩

/-- Counterexample to claim C4 as stated: in the branch where no device is
bound (or the session was never open), `close` neither emits a `close`
notification nor clears the in-flight read flag.  The state is reachable:
open a session, start a read, then receive a detach for the bound device
(which nulls the device but leaves the in-flight flag set). -/
theorem C4_close_counterexample :
    (⟨none, none, none, false, false, false, true⟩ : Session).isClosing = false ∧
    (closeOp ⟨none, none, none, false, false, false, true⟩).1.readInFlight = true ∧
    Action.emitClose ∉ (closeOp ⟨none, none, none, false, false, false, true⟩).2 := by
  decide

/-- Claim C4, amended: every `close` not rejected by the already-closing
guard clears the endpoint pair, the open flag and the closing flag (so a
subsequent close is not permanently a no-op) and reports success; when a
device is bound and the session is open it additionally clears the
in-flight read flag and emits a `close` notification; in the no-device /
never-open branch the in-flight flag is left untouched and no `close`
notification is emitted. -/
theorem C4_close_amended (s : Session) (hc : s.isClosing = false) :
    (closeOp s).1.endpoint = none ∧
    (closeOp s).1.deviceToPcEndpoint = none ∧
    (closeOp s).1.isOpen = false ∧
    (closeOp s).1.isClosing = false ∧
    cbEvents (closeOp s).2 = [CbResult.ok] ∧
    ((s.device.isSome && s.isOpen) = true →
      (closeOp s).1.readInFlight = false ∧ Action.emitClose ∈ (closeOp s).2) ∧
    ((s.device.isSome && s.isOpen) = false →
      (closeOp s).1.readInFlight = s.readInFlight ∧
        Action.emitClose ∉ (closeOp s).2) := by
  cases hd : s.device with
  | none =>
      cases ho : s.isOpen <;>
        refine ⟨?_, ?_, ?_, ?_, ?_, ?_, ?_⟩ <;>
          simp [closeOp, hc, hd, ho, cbEvents, cbOf]
  | some d =>
      cases ho : s.isOpen <;>
        refine ⟨?_, ?_, ?_, ?_, ?_, ?_, ?_⟩ <;>
          simp [closeOp, hc, hd, ho, cbEvents, cbOf]

/-- Witness for C4 (amended) at concrete inputs: closing an open session
with a bound device clears everything, reports success, and emits `close`;
closing a session with no device succeeds without the `close` event. -/
theorem C4_close_amended_witness :
    cbEvents (closeOp ⟨some ⟨1, none, [], none⟩, some ⟨Direction.dOut, 1, 15000⟩,
      some ⟨Direction.dIn, 2, 700⟩, true, false, false, true⟩).2 = [CbResult.ok] ∧
    (closeOp ⟨some ⟨1, none, [], none⟩, some ⟨Direction.dOut, 1, 15000⟩,
      some ⟨Direction.dIn, 2, 700⟩, true, false, false, true⟩).1.readInFlight = false ∧
    Action.emitClose ∈ (closeOp ⟨some ⟨1, none, [], none⟩, some ⟨Direction.dOut, 1, 15000⟩,
      some ⟨Direction.dIn, 2, 700⟩, true, false, false, true⟩).2 := by
  have h := C4_close_amended ⟨some ⟨1, none, [], none⟩, some ⟨Direction.dOut, 1, 15000⟩,
    some ⟨Direction.dIn, 2, 700⟩, true, false, false, true⟩ rfl
  exact ⟨h.2.2.2.2.1, (h.2.2.2.2.2.1 rfl).1, (h.2.2.2.2.2.1 rfl).2⟩

/-- Claim C9: `findPrinter` keeps exactly the devices with at least one
interface declaring class code 0x07, in the transport's enumeration order
(the result is a sublist of the input), and silently excludes any device
whose configuration descriptor cannot be read. -/
theorem C9_findPrinter (devs : List Device) :
    (∀ d, d ∈ findPrinter devs ↔ d ∈ devs ∧ isPrinterDevice d = true) ∧
    List.Sublist (findPrinter devs) devs ∧
    (∀ d, isPrinterDevice d = true ↔
      ∃ ifaces, d.configDescriptor = some ifaces ∧ ∃ ifc ∈ ifaces, printerClass ∈ ifc) ∧
    (∀ d, d.configDescriptor = none → d ∉ findPrinter devs) := by
  refine ⟨?_, ?_, ?_, ?_⟩
  · intro d
    simp [findPrinter, List.mem_filter]
  · exact List.filter_sublist devs
  · intro d
    cases hcd : d.configDescriptor with
    | none => simp [isPrinterDevice, hcd]
    | some ifaces =>
        simp only [isPrinterDevice, hcd, List.any_eq_true, Option.some.injEq]
        constructor
        · rintro ⟨ifc, hifc, cls, hcls, hbeq⟩
          have hcls7 : cls = printerClass := by
            exact beq_iff_eq.mp hbeq
          exact ⟨ifaces, rfl, ifc, hifc, hcls7 ▸ hcls⟩
        · rintro ⟨ifaces2, heq, ifc, hifc, hmem⟩
          subst heq
          exact ⟨ifc, hifc, printerClass, hmem, by simp⟩
  · intro d hcd hmem
    rw [findPrinter, List.mem_filter] at hmem
    rw [isPrinterDevice, hcd] at hmem
    cases hmem.2

/-- Witness for C9 at concrete inputs: from a three-device list, the two
printer-class devices are kept in order, and a device whose descriptor
read fails is excluded. -/
theorem C9_findPrinter_witness :
    ((⟨1, none, [], some [[7]]⟩ : Device) ∈
      findPrinter [⟨1, none, [], some [[7]]⟩, ⟨2, none, [], none⟩, ⟨3, none, [], some [[1], [7]]⟩]) ∧
    ((⟨2, none, [], none⟩ : Device) ∉
      findPrinter [⟨1, none, [], some [[7]]⟩, ⟨2, none, [], none⟩, ⟨3, none, [], some [[1], [7]]⟩]) := by
  constructor
  · exact ((C9_findPrinter [⟨1, none, [], some [[7]]⟩, ⟨2, none, [], none⟩,
      ⟨3, none, [], some [[1], [7]]⟩]).1 ⟨1, none, [], some [[7]]⟩).mpr (by decide)
  · exact (C9_findPrinter [⟨1, none, [], some [[7]]⟩, ⟨2, none, [], none⟩,
      ⟨3, none, [], some [[1], [7]]⟩]).2.2.2 ⟨2, none, [], none⟩ rfl

/-- Claim C10: `USB.getDevice` builds a fresh session and opens it; the
promise is decided by the first completion of `open`'s callback — it
resolves with the session exactly when that completion reports success and
rejects with the reported error otherwise. -/
theorem C10_getDevice_first_completion (found : Option Device) (r : CbResult)
    (rest : List CbResult) (h : openCbs (newUSB found) = r :: rest) :
    getDevice found = some (promiseAttempt r) ∧
    (r = CbResult.ok → getDevice found = some PromiseResult.resolved) ∧
    (∀ e, r = CbResult.err e → getDevice found = some (PromiseResult.rejected e)) := by
  have h1 : getDevice found = some (promiseAttempt r) := by
    rw [getDevice, h]
    rfl
  refine ⟨h1, ?_, ?_⟩
  · intro hr
    rw [h1, hr]
    rfl
  · intro e hr
    rw [h1, hr]
    rfl

/-- Witness for C10 at concrete inputs: a device with one interface
offering an OUT and an IN endpoint opens successfully on the first
completion, so the promise resolves; a device whose transport open throws
error 9 rejects with that error. -/
theorem C10_getDevice_first_completion_witness :
    getDevice (some ⟨1, none, [⟨0, none, [⟨Direction.dOut, 1, 0⟩, ⟨Direction.dIn, 2, 0⟩]⟩], none⟩) =
      some PromiseResult.resolved ∧
    getDevice (some ⟨1, some 9, [], none⟩) = some (PromiseResult.rejected (UsbError.transport 9)) := by
  constructor
  · exact (C10_getDevice_first_completion
      (some ⟨1, none, [⟨0, none, [⟨Direction.dOut, 1, 0⟩, ⟨Direction.dIn, 2, 0⟩]⟩], none⟩)
      CbResult.ok [] (by decide)).2.1 rfl
  · exact (C10_getDevice_first_completion (some ⟨1, some 9, [], none⟩)
      (CbResult.err (UsbError.transport 9)) [] (by decide)).2.2 (UsbError.transport 9) rfl

/-- Claim C1: `open` records an endpoint pair only when both the OUT and
the IN endpoint come from the same interface (an interface offering only
one direction contributes nothing, and the stored flags never hold a
partial pair); in particular, for a device with one OUT-only interface and
a separate IN-only interface, `open` stores nothing and fails with
`endpointPairNotFound`. -/
theorem C1_pair_same_interface (s : Session) (d : Device)
    (hdev : s.device = some d) (hnr : s.isResetting = false) (hno : s.isOpen = false)
    (hoe : d.openError = none) (hep : s.endpoint = none)
    (hdtp : s.deviceToPcEndpoint = none) :
    (∀ o i, (openOp s).1.endpoint = some o → (openOp s).1.deviceToPcEndpoint = some i →
      ∃ ifc, ifc ∈ d.interfaces ∧ pairFromIface ifc o i) ∧
    (openOp s).1.endpoint.isSome = (openOp s).1.deviceToPcEndpoint.isSome ∧
    (∀ i1 i2, d.interfaces = [i1, i2] →
      i1.claimError = none → i2.claimError = none →
      (firstEp Direction.dOut i1.endpoints).isSome = true →
      firstEp Direction.dIn i1.endpoints = none →
      firstEp Direction.dOut i2.endpoints = none →
      (firstEp Direction.dIn i2.endpoints).isSome = true →
      (openOp s).1.endpoint = none ∧ (openOp s).1.deviceToPcEndpoint = none ∧
        cbEvents (openOp s).2 = [CbResult.err UsbError.endpointPairNotFound]) := by
  have hrun1 : (openOp s).1 = (d.interfaces.foldl (openIfaceStep d.interfaces.length)
      ⟨s, 0, [Action.natDeviceOpen]⟩).s := by
    simp [openOp, hdev, hnr, hno, hoe]
  have hrun2 : (openOp s).2 = (d.interfaces.foldl (openIfaceStep d.interfaces.length)
      ⟨s, 0, [Action.natDeviceOpen]⟩).trace := by
    simp [openOp, hdev, hnr, hno, hoe]
  have hinv := openFold_goodPair d.interfaces.length d.interfaces d.interfaces
    (fun _ h => h) ⟨s, 0, [Action.natDeviceOpen]⟩ (Or.inl ⟨hep, hdtp⟩)
  refine ⟨?_, ?_, ?_⟩
  · intro o i ho hi
    rw [hrun1] at ho hi
    rcases hinv with ⟨h1, _⟩ | ⟨ifc, o2, i2, hmem, hpair, he2, hd2⟩
    · rw [h1] at ho
      cases ho
    · rw [he2] at ho
      rw [hd2] at hi
      cases ho
      cases hi
      exact ⟨ifc, hmem, hpair⟩
  · rw [hrun1]
    rcases hinv with ⟨h1, h2⟩ | ⟨ifc, o2, i2, _, _, he2, hd2⟩
    · rw [h1, h2]
    · rw [he2, hd2]
      rfl
  · intro i1 i2 hint hc1 hc2 hout1 hin1 hout2 hin2
    rw [hint] at hrun1 hrun2
    have hg1 : ((firstEp Direction.dOut i1.endpoints).isSome &&
        (firstEp Direction.dIn i1.endpoints).isSome) = false := by
      simp [hin1]
    have hg2 : ((firstEp Direction.dOut i2.endpoints).isSome &&
        (firstEp Direction.dIn i2.endpoints).isSome) = false := by
      simp [hout2]
    have hfold : ([i1, i2].foldl (openIfaceStep [i1, i2].length)
        ⟨s, 0, [Action.natDeviceOpen]⟩ : OpenAcc)
        = { s := s
            counter := 0 + 1 + 1
            trace := (([Action.natDeviceOpen] : List Action) ++
                [Action.natSetAlt i1.altSetting, Action.natClaim]) ++
                [Action.natSetAlt i2.altSetting, Action.natClaim,
                 Action.cb (CbResult.err UsbError.endpointPairNotFound)] } := by
      rw [List.foldl_cons,
          openIfaceStep_noPair_mid [i1, i2].length ⟨s, 0, [Action.natDeviceOpen]⟩
            i1 hc1 hep hdtp hg1 (by simp),
          List.foldl_cons, List.foldl_nil,
          openIfaceStep_noPair_last [i1, i2].length _ i2 hc2 hep hdtp hg2 (by simp)]
    refine ⟨?_, ?_, ?_⟩
    · rw [hrun1, hfold]
      exact hep
    · rw [hrun1, hfold]
      exact hdtp
    · rw [hrun2, hfold]
      simp [cbEvents_append, cbEvents, cbOf]

/-- Witness for C1 at concrete inputs: a device whose first interface has
only an OUT endpoint and whose second has only an IN endpoint yields no
stored pair and the `endpointPairNotFound` report. -/
theorem C1_pair_same_interface_witness :
    (openOp (newUSB (some ⟨2, none, [⟨0, none, [⟨Direction.dOut, 1, 0⟩]⟩,
        ⟨0, none, [⟨Direction.dIn, 2, 0⟩]⟩], none⟩))).1.endpoint = none ∧
    (openOp (newUSB (some ⟨2, none, [⟨0, none, [⟨Direction.dOut, 1, 0⟩]⟩,
        ⟨0, none, [⟨Direction.dIn, 2, 0⟩]⟩], none⟩))).1.deviceToPcEndpoint = none ∧
    cbEvents (openOp (newUSB (some ⟨2, none, [⟨0, none, [⟨Direction.dOut, 1, 0⟩]⟩,
        ⟨0, none, [⟨Direction.dIn, 2, 0⟩]⟩], none⟩))).2 =
      [CbResult.err UsbError.endpointPairNotFound] := by
  exact (C1_pair_same_interface
    (newUSB (some ⟨2, none, [⟨0, none, [⟨Direction.dOut, 1, 0⟩]⟩,
      ⟨0, none, [⟨Direction.dIn, 2, 0⟩]⟩], none⟩))
    ⟨2, none, [⟨0, none, [⟨Direction.dOut, 1, 0⟩]⟩, ⟨0, none, [⟨Direction.dIn, 2, 0⟩]⟩], none⟩
    rfl rfl rfl rfl rfl rfl).2.2
    ⟨0, none, [⟨Direction.dOut, 1, 0⟩]⟩ ⟨0, none, [⟨Direction.dIn, 2, 0⟩]⟩
    rfl rfl rfl (by decide) (by decide) (by decide) (by decide)

/-- Counterexample to claim C3 as stated: with two interfaces — the first
one's claim step throwing error 5, the second offering a full pair — one
invocation of `open` invokes its callback twice: once with the claim error
and once with success. -/
theorem C3_open_callback_counterexample :
    openCbs (newUSB (some ⟨1, none,
        [⟨0, some 5, []⟩, ⟨0, none, [⟨Direction.dOut, 1, 0⟩, ⟨Direction.dIn, 2, 0⟩]⟩],
        none⟩)) =
      [CbResult.err (UsbError.transport 5), CbResult.ok] ∧
    (openCbs (newUSB (some ⟨1, none,
        [⟨0, some 5, []⟩, ⟨0, none, [⟨Direction.dOut, 1, 0⟩, ⟨Direction.dIn, 2, 0⟩]⟩],
        none⟩))).length ≠ 1 := by
  decide

/-- Claim C3, amended: on a bound, non-resetting, closed session whose
transport device-open succeeds and where no per-interface setup step
raises an error, one invocation of `open` invokes its callback exactly
once when the device has at least one interface — and when no pair was
ever recorded, that single completion is the `endpointPairNotFound`
report, delivered after the last interface's setup completes (it is the
final action of the run) — while for a device with no interfaces the
callback is never invoked at all (zero completions).  A setup step that
raises adds one further error invocation per failing interface, as the
counterexample shows. -/
theorem C3_open_single_callback (s : Session) (d : Device)
    (hdev : s.device = some d) (hnr : s.isResetting = false) (hno : s.isOpen = false)
    (hoe : d.openError = none) (hep : s.endpoint = none)
    (hdtp : s.deviceToPcEndpoint = none)
    (hcl : ∀ ifc ∈ d.interfaces, ifc.claimError = none) :
    (d.interfaces ≠ [] →
      (openCbs s).length = 1 ∧
      ((openOp s).1.endpoint = none →
        (openOp s).2.getLast? =
          some (Action.cb (CbResult.err UsbError.endpointPairNotFound)))) ∧
    (d.interfaces = [] → openCbs s = []) := by
  have hrun1 : (openOp s).1 = (d.interfaces.foldl (openIfaceStep d.interfaces.length)
      ⟨s, 0, [Action.natDeviceOpen]⟩).s := by
    simp [openOp, hdev, hnr, hno, hoe]
  have hrun2 : (openOp s).2 = (d.interfaces.foldl (openIfaceStep d.interfaces.length)
      ⟨s, 0, [Action.natDeviceOpen]⟩).trace := by
    simp [openOp, hdev, hnr, hno, hoe]
  constructor
  · intro hne
    have hx := openFold_exhaust d.interfaces.length d.interfaces
      ⟨s, 0, [Action.natDeviceOpen]⟩ hne hcl hep hdtp (by simp)
    constructor
    · have h1 := hx.1
      simp only [openCbs]
      rw [hrun2, h1]
      simp [cbEvents, cbOf]
    · intro hnone
      rw [hrun1] at hnone
      rw [hrun2]
      exact hx.2 hnone
  · intro hnil
    simp only [openCbs]
    rw [hrun2, hnil]
    simp [cbEvents, cbOf]

/-- Witness for C3 (amended) at concrete inputs: a device with a single
interface bearing no endpoints produces exactly one callback invocation,
the `endpointPairNotFound` report, as the final action; a device with no
interfaces produces zero callback invocations. -/
theorem C3_open_single_callback_witness :
    (openCbs (newUSB (some ⟨1, none, [⟨0, none, []⟩], none⟩))).length = 1 ∧
    (openOp (newUSB (some ⟨1, none, [⟨0, none, []⟩], none⟩))).2.getLast? =
      some (Action.cb (CbResult.err UsbError.endpointPairNotFound)) ∧
    openCbs (newUSB (some ⟨2, none, [], none⟩)) = [] := by
  have h := C3_open_single_callback (newUSB (some ⟨1, none, [⟨0, none, []⟩], none⟩))
    ⟨1, none, [⟨0, none, []⟩], none⟩ rfl rfl rfl rfl rfl rfl (by decide)
  have h0 := C3_open_single_callback (newUSB (some ⟨2, none, [], none⟩))
    ⟨2, none, [], none⟩ rfl rfl rfl rfl rfl rfl (by decide)
  exact ⟨(h.1 (by decide)).1, (h.1 (by decide)).2 (by decide), h0.2 rfl⟩

end EsposUsb
